import Mathlib

/-!
Shallow embedding of `src/main.js` (client-side interaction layer of the
Fundación web page): mobile navigation toggle, smooth in-page scrolling,
scroll-triggered counter animation, and the simulated donation modal.

DOM elements are modelled as record values; an element that may be absent
from the document is an `Option`.  A JavaScript `TypeError` raised by
dereferencing a missing (null) element is modelled with `Except`.
-/

namespace Fundacion

/-- The runtime error raised by JavaScript when a property of `null` is
accessed (dereference of a missing DOM element). -/
inductive JsError where
  | typeError : JsError
deriving DecidableEq, Repr

/-! ## Navigation (src/main.js lines 13-40) -/

/-- State of the `.menu-toggle` button: its `aria-expanded` attribute and its
`innerHTML` glyph. -/
structure ToggleBtn where
  ariaExpanded : String
  innerHTML : String
deriving DecidableEq, Repr

/-- State of the `#main-nav` panel: presence of the `is-open` class. -/
structure NavPanel where
  isOpen : Bool
deriving DecidableEq, Repr

/-- The two DOM elements the Navigation module looks up at load time
(lines 14-15); either may be absent from the document. -/
structure NavDom where
  menuToggle : Option ToggleBtn
  mainNav : Option NavPanel
deriving DecidableEq, Repr

/-- Function `Navigation.init` (lines 17-28): `if (!menuToggle || !mainNav) return;`
then attaches the toggle click listener.  Returns whether the listener was
attached; it never raises. -/
def navInit (d : NavDom) : Except JsError Bool :=
  match d.menuToggle, d.mainNav with
  | some _, some _ => .ok true
  | _, _ => .ok false

/-- Function `Navigation.closeMenu` (lines 31-37): dereferences `mainNav.classList`
with no null guard; when the `is-open` class is present it removes it, sets
`aria-expanded` to `"false"` on `menuToggle` (again with no null guard) and
restores the hamburger glyph. -/
def closeMenu (d : NavDom) : Except JsError NavDom :=
  match d.mainNav with
  | none => .error .typeError
  | some nav =>
    if nav.isOpen then
      match d.menuToggle with
      | none => .error .typeError
      | some _ =>
        .ok { menuToggle := some { ariaExpanded := "false", innerHTML := "☰" },
              mainNav := some { isOpen := false } }
    else
      .ok d

/-! ## SmoothScroll (src/main.js lines 122-150) -/

/-- Observable DOM side effects of the SmoothScroll click handler, in the
order they are issued. -/
inductive ScrollAction where
  | preventDefault
  | scrollIntoView (selector behavior block : String)
  | closeMenuCall
deriving DecidableEq, Repr

/-- The SmoothScroll click handler (lines 127-145): always prevents the
default navigation; returns early on the bare `"#"` href; otherwise looks
up the fragment target (`targetExists` abstracts
`document.querySelector(targetId) !== null`) and, when found, scrolls it
into view with smooth / align-to-top behavior and then calls
`Navigation.closeMenu()`.  Returns the actions performed (in order) and the
outcome on the navigation elements. -/
def smoothScrollClick (href : String) (targetExists : String → Bool)
    (nav : NavDom) : List ScrollAction × Except JsError NavDom :=
  if href = "#" then
    ([.preventDefault], .ok nav)
  else if targetExists href then
    ([.preventDefault, .scrollIntoView href "smooth" "start", .closeMenuCall],
     closeMenu nav)
  else
    ([.preventDefault], .ok nav)

/-! ## StatsAnimation observer (src/main.js lines 186-201) -/

/-- State of the stats intersection observer: the `hasAnimated` one-shot
flag (line 158), whether the section is still observed (unobserved at
line 195), and how many times `animateCounters` has been invoked. -/
structure StatsState where
  hasAnimated : Bool
  observing : Bool
  animations : Nat
deriving DecidableEq, Repr

/-- One observer entry for the stats section (lines 191-197): while the
section is observed, an intersecting entry with the flag still unset runs
`animateCounters()`, sets `hasAnimated` and unobserves the section; any
other entry does nothing.  After `unobserve` no further callbacks fire. -/
def statsStep (s : StatsState) (isIntersecting : Bool) : StatsState :=
  if s.observing then
    if isIntersecting && !s.hasAnimated then
      { hasAnimated := true, observing := false, animations := s.animations + 1 }
    else s
  else s

/-- Initial observer state after `StatsAnimation.init` (lines 158, 200). -/
def statsInit : StatsState :=
  { hasAnimated := false, observing := true, animations := 0 }

/-- Run the observer over a sequence of intersection entries for the stats
section (`true` = the section is intersecting at ≥ 50 % visibility). -/
def statsRun (events : List Bool) : StatsState :=
  events.foldl statsStep statsInit

/-! ## DonationModal (src/main.js lines 44-117) -/

/-- State of the `#btn-process-payment` button: its `innerText`, its inline
`opacity` style, and its `disabled` property. -/
structure BtnState where
  innerText : String
  opacity : String
  disabled : Bool
deriving DecidableEq, Repr

/-- DOM state the DonationModal handlers read and write, for a page with
`n` amount buttons.  `visible` is the `is-visible` class on the modal root;
`step1` / `step2` hold the inline `display` style of `#modal-step-1` /
`#modal-step-2` when present (`none` = element missing from the document);
`processBtn` is `#btn-process-payment` when present; `amountSelected i`
records the `selected` class on the `i`-th `.btn-amount`. -/
structure ModalDom (n : Nat) where
  visible : Bool
  step1 : Option String
  step2 : Option String
  processBtn : Option BtnState
  amountSelected : Fin n → Bool
deriving DecidableEq

/-- Function `DonationModal.init` (line 55): `if (!modal) return;` — with no modal
root nothing is wired and nothing raises.  Returns whether the component's
listeners were attached. -/
def donationInit (n : Nat) (modal : Option (ModalDom n)) : Except JsError Bool :=
  match modal with
  | none => .ok false
  | some _ => .ok true

/-- Function `resetModal` (lines 106-114): sets `step1.style.display = 'block'` and
`step2.style.display = 'none'` with no null guard on either container
(raising a `TypeError` when one is absent), then — only `if(processBtn)` —
restores the payment button's label, opacity and enabled state. -/
def resetModal {n : Nat} (d : ModalDom n) : Except JsError (ModalDom n) :=
  match d.step1 with
  | none => .error .typeError
  | some _ =>
    match d.step2 with
    | none => .error .typeError
    | some _ =>
      .ok { d with
            step1 := some "block"
            step2 := some "none"
            processBtn := d.processBtn.map fun _ =>
              { innerText := "CONFIRMAR DONACIÓN", opacity := "1", disabled := false } }

/-- The open-donation click handler (lines 58-64): `e.preventDefault()`,
add the `is-visible` class to the modal root, then `resetModal()`. -/
def openDonateClick {n : Nat} (d : ModalDom n) : Except JsError (ModalDom n) :=
  resetModal { d with visible := true }

/-- Function `closeModal` (line 67): remove the `is-visible` class. -/
def closeModalClick {n : Nat} (d : ModalDom n) : ModalDom n :=
  { d with visible := false }

/-- The amount-button click handler (lines 77-84): remove the `selected`
class from every `.btn-amount`, then add it to the clicked one. -/
def amountClick {n : Nat} (d : ModalDom n) (i : Fin n) : ModalDom n :=
  { d with amountSelected := fun j => decide (j = i) }

/-- A sequence of amount-button clicks, applied in order. -/
def applyAmountClicks {n : Nat} (d : ModalDom n) (clicks : List (Fin n)) : ModalDom n :=
  clicks.foldl amountClick d

/-- The payment-process click handler's synchronous part (lines 88-94):
the listener exists only `if(processBtn)` (line 87), so a click on an
absent button does nothing; otherwise the label becomes `"Procesando..."`,
the opacity `"0.7"`, and the button is disabled, before the 2000 ms timer
is scheduled. -/
def processBtnClick {n : Nat} (d : ModalDom n) : ModalDom n :=
  { d with processBtn := d.processBtn.map fun _ =>
      { innerText := "Procesando...", opacity := "0.7", disabled := true } }

/-- The delay passed to `setTimeout` on line 101, in milliseconds. -/
def paymentDelayMs : Nat := 2000

/-- The `setTimeout` callback (lines 97-101): unconditionally sets
`step1.style.display = 'none'` and `step2.style.display = 'block'`
(raising a `TypeError` when a container is absent); it touches nothing
else — in particular the button's `disabled` state is left as-is. -/
def paymentTimerFire {n : Nat} (d : ModalDom n) : Except JsError (ModalDom n) :=
  match d.step1 with
  | none => .error .typeError
  | some _ =>
    match d.step2 with
    | none => .error .typeError
    | some _ =>
      .ok { d with step1 := some "none", step2 := some "block" }

/-- The part of the modal state that is not the amount selection: modal
visibility, both step containers, and the payment button. -/
def nonAmountState {n : Nat} (d : ModalDom n) :
    Bool × Option String × Option String × Option BtnState :=
  (d.visible, d.step1, d.step2, d.processBtn)

/-! ## Counter animation (src/main.js lines 160-184) -/

/-- Expression `counter.innerText.replace(/\D/g, '')` (line 162): strip every
non-digit character. -/
def stripNonDigits (s : String) : String :=
  String.mk (s.data.filter Char.isDigit)

/-- Decimal value of a digit sequence, most-significant first. -/
def digitsToNat (ds : List Char) : Nat :=
  ds.foldl (fun n c => n * 10 + (c.toNat - '0'.toNat)) 0

/-- The unary `+` applied to the stripped string on line 162: a string of
digits parses to its decimal value, and the empty string to 0. -/
def counterTarget (s : String) : Nat :=
  digitsToNat (stripNonDigits s).data

/-- Animation duration in ms (line 164). -/
def duration : Nat := 2000

/-- Assumed frame length in ms (line 165: "16ms es aprox 1 frame"). -/
def frameMs : Nat := 16

/-- The per-frame increment `target / (duration / 16)` (line 165),
computed exactly. -/
def increment (target : Nat) : Rat :=
  (target : Rat) / ((duration : Rat) / (frameMs : Rat))

/-- The `Number.prototype.toLocaleString` grouping: insert a separator after
every group of three digits, working from the least-significant end.  The
argument is the digit list least-significant first. -/
def groupRev : List Char → List Char
  | [] => []
  | [a] => [a]
  | [a, b] => [a, b]
  | [a, b, c] => [a, b, c]
  | a :: b :: c :: rest => a :: b :: c :: ',' :: groupRev rest

/-- Call `n.toLocaleString()` (line 174) under a locale whose grouping
separator is `','` (e.g. en-US): the decimal digits of `n` grouped in
threes. -/
def natToLocaleString (n : Nat) : String :=
  String.mk (groupRev (Nat.toDigits 10 n).reverse).reverse

/-- The `updateCount` frame loop (lines 169-180), with the
`requestAnimationFrame` chain unrolled: each frame adds the increment to
`current`; while `current < target` it displays
`Math.ceil(current).toLocaleString()` and schedules the next frame;
otherwise it displays the captured original text and stops.  The result is
the sequence of values written to `counter.innerText`, one per frame.
`fuel` bounds the number of frames modelled; it is dropped only if the
loop has not finished, and any fuel beyond the loop's length gives the
same list. -/
def updateCount (target : Nat) (originalText : String) :
    Nat → Rat → List String
  | 0, _ => []
  | fuel + 1, current =>
    let current' := current + increment target
    if current' < (target : Rat) then
      natToLocaleString (Rat.ceil current').toNat
        :: updateCount target originalText fuel current'
    else
      [originalText]

/-- One counter's full animation (lines 161-182): capture the displayed
text, derive the target, start from `current = 0` and run the frame
loop. -/
def animateCounter (text : String) (fuel : Nat) : List String :=
  updateCount (counterTarget text) text fuel 0

/-! ## Theorems -/

/-- Once the observer has fired (flag set, section unobserved), further
entries leave the state unchanged. -/
lemma statsRun_done (events : List Bool) :
    events.foldl statsStep
      { hasAnimated := true, observing := false, animations := 1 } =
      { hasAnimated := true, observing := false, animations := 1 } := by
  induction events with
  | nil => rfl
  | cons e evs ih => simpa [statsStep] using ih

/-- Closed form of the observer run: it ends in the fired state exactly
when some entry intersected, and otherwise stays at the initial state. -/
lemma statsRun_closed_form (events : List Bool) :
    statsRun events =
      (if events.contains true then
        { hasAnimated := true, observing := false, animations := 1 }
      else statsInit) := by
  induction events with
  | nil => rfl
  | cons e evs ih =>
    cases e with
    | true =>
      simp only [statsRun, List.foldl_cons, List.contains_cons]
      simpa [statsStep, statsInit] using statsRun_done evs
    | false =>
      simp only [statsRun, List.foldl_cons, List.contains_cons]
      simpa [statsStep, statsInit] using ih

/-- C3: the counter animation runs at most once per page load.  For any
sequence of intersection entries of the stats section, the run ends in the
fired state (flag set, section unobserved, `animateCounters` invoked
exactly once) exactly when some entry was intersecting, and otherwise in
the initial state; in every case the animation has run at most once, so no
later entry or exit of the section ever triggers it again. -/
theorem stats_animation_at_most_once (events : List Bool) :
    (statsRun events =
      if events.contains true then
        { hasAnimated := true, observing := false, animations := 1 }
      else statsInit) ∧
    (statsRun events).animations ≤ 1 := by
  refine ⟨statsRun_closed_form events, ?_⟩
  rw [statsRun_closed_form events]
  split <;> simp [statsInit]

/-- C6: every fragment-link click suppresses the default navigation; a bare
`"#"` href does nothing further; when the fragment's target exists the
handler scrolls it into view (smooth, align-to-top) and then calls
`Navigation.closeMenu()`, in that order; when it does not exist, neither
the scroll nor the menu close occurs and no error is raised. -/
theorem smooth_scroll_click_spec :
    (∀ (href : String) (lookup : String → Bool) (nav : NavDom),
      ScrollAction.preventDefault ∈ (smoothScrollClick href lookup nav).1) ∧
    (∀ (lookup : String → Bool) (nav : NavDom),
      smoothScrollClick "#" lookup nav = ([.preventDefault], .ok nav)) ∧
    (∀ (href : String) (lookup : String → Bool) (nav : NavDom),
      href ≠ "#" → lookup href = true →
      smoothScrollClick href lookup nav =
        ([.preventDefault, .scrollIntoView href "smooth" "start", .closeMenuCall],
         closeMenu nav)) ∧
    (∀ (href : String) (lookup : String → Bool) (nav : NavDom),
      lookup href = false →
      smoothScrollClick href lookup nav = ([.preventDefault], .ok nav)) := by
  refine ⟨?_, ?_, ?_, ?_⟩
  · intro href lookup nav
    by_cases h : href = "#" <;> by_cases h2 : lookup href = true <;>
      simp [smoothScrollClick, h, h2]
  · intro lookup nav
    simp [smoothScrollClick]
  · intro href lookup nav h h2
    simp [smoothScrollClick, h, h2]
  · intro href lookup nav h
    by_cases h2 : href = "#" <;> simp [smoothScrollClick, h, h2]

/-- Witness for `smooth_scroll_click_spec` at the inputs of the spec's
example: href `"#team"` with an existing target, and href `"#"`. -/
theorem smooth_scroll_click_spec_witness :
    ("#team" ≠ "#") ∧ ((fun s => s = "#team") "#team" = true) ∧
    smoothScrollClick "#team" (fun s => s = "#team")
        ⟨some ⟨"true", "✕"⟩, some ⟨true⟩⟩ =
      ([.preventDefault, .scrollIntoView "#team" "smooth" "start", .closeMenuCall],
       closeMenu ⟨some ⟨"true", "✕"⟩, some ⟨true⟩⟩) :=
  ⟨by decide, by decide,
    smooth_scroll_click_spec.2.2.1 "#team" (fun s => s = "#team")
      ⟨some ⟨"true", "✕"⟩, some ⟨true⟩⟩ (by decide) (by decide)⟩

/-- C7: with both navigation elements present, `closeMenu` is idempotent:
on an already-closed panel it returns the state unchanged (class,
`aria-expanded`, glyph untouched); on an open panel it removes the open
class, sets `aria-expanded` to `"false"` and restores the closed glyph;
and re-running it on any of its results changes nothing. -/
theorem closeMenu_idempotent (t : ToggleBtn) (nav : NavPanel) :
    (nav.isOpen = false →
      closeMenu ⟨some t, some nav⟩ = .ok ⟨some t, some nav⟩) ∧
    (nav.isOpen = true →
      closeMenu ⟨some t, some nav⟩ =
        .ok ⟨some ⟨"false", "☰"⟩, some ⟨false⟩⟩) ∧
    (∀ d' : NavDom, closeMenu ⟨some t, some nav⟩ = .ok d' →
      closeMenu d' = .ok d') := by
  refine ⟨?_, ?_, ?_⟩
  · intro h; simp [closeMenu, h]
  · intro h; simp [closeMenu, h]
  · intro d' h
    cases hop : nav.isOpen with
    | false =>
      simp [closeMenu, hop] at h
      subst h
      simp [closeMenu, hop]
    | true =>
      simp [closeMenu, hop] at h
      subst h
      simp [closeMenu]

/-- Witness for `closeMenu_idempotent` on a concrete open panel. -/
theorem closeMenu_idempotent_witness :
    ((⟨true⟩ : NavPanel).isOpen = true) ∧
    closeMenu ⟨some ⟨"true", "✕"⟩, some ⟨true⟩⟩ =
      .ok ⟨some ⟨"false", "☰"⟩, some ⟨false⟩⟩ :=
  ⟨rfl, (closeMenu_idempotent ⟨"true", "✕"⟩ ⟨true⟩).2.1 rfl⟩

/-- C9: unlike `Navigation.init`, which returns without error when either
element is missing, `closeMenu` dereferences the navigation panel with no
guard: with the panel absent every call raises a `TypeError` — including
the one SmoothScroll makes after a successful target lookup — and with the
panel present but the toggle missing, closing an open menu raises too. -/
theorem closeMenu_unguarded_nav :
    (∀ t : Option ToggleBtn, closeMenu ⟨t, none⟩ = .error .typeError) ∧
    (∀ nav : NavPanel, nav.isOpen = true →
      closeMenu ⟨none, some nav⟩ = .error .typeError) ∧
    (∀ d : NavDom, navInit d ≠ .error .typeError) ∧
    (∀ t : Option ToggleBtn, navInit ⟨t, none⟩ = .ok false) ∧
    (∀ p : Option NavPanel, navInit ⟨none, p⟩ = .ok false) ∧
    (∀ (href : String) (lookup : String → Bool) (t : Option ToggleBtn),
      href ≠ "#" → lookup href = true →
      (smoothScrollClick href lookup ⟨t, none⟩).2 = .error .typeError) := by
  refine ⟨?_, ?_, ?_, ?_, ?_, ?_⟩
  · intro t; rfl
  · intro nav h; simp [closeMenu, h]
  · intro d
    rcases d with ⟨t, p⟩
    cases t <;> cases p <;> simp [navInit]
  · intro t; cases t <;> rfl
  · intro p; cases p <;> rfl
  · intro href lookup t h h2
    simp [smoothScrollClick, h, h2, closeMenu]

/-- Witness for `closeMenu_unguarded_nav`: an open-menu close with the
toggle missing, and a SmoothScroll click on `"#team"` with the panel
missing, both raise. -/
theorem closeMenu_unguarded_nav_witness :
    ((⟨true⟩ : NavPanel).isOpen = true) ∧
    closeMenu ⟨none, some ⟨true⟩⟩ = .error .typeError ∧
    ("#team" ≠ "#") ∧ ((fun s => s = "#team") "#team" = true) ∧
    (smoothScrollClick "#team" (fun s => s = "#team")
      ⟨some ⟨"true", "✕"⟩, none⟩).2 = .error .typeError :=
  ⟨rfl, closeMenu_unguarded_nav.2.1 ⟨true⟩ rfl, by decide, by decide,
    closeMenu_unguarded_nav.2.2.2.2.2 "#team" (fun s => s = "#team")
      (some ⟨"true", "✕"⟩) (by decide) (by decide)⟩

/-- A concrete modal DOM (no amount buttons) whose `#modal-step-1`
container is missing while the modal root, the step-2 container and the
payment button are present. -/
def missingStep1Dom : ModalDom 0 :=
  { visible := true
    step1 := none
    step2 := some "none"
    processBtn := some { innerText := "CONFIRMAR DONACIÓN", opacity := "1", disabled := false }
    amountSelected := fun i => i.elim0 }

/-- C1 counterexample: with the modal root present but the step-1
container missing, an open-donation click (which runs `resetModal`) and
the 2000 ms payment timer both raise a `TypeError` instead of performing
no action — the claim that every handler is defensively skipped is
false. -/
theorem missing_step_raises :
    openDonateClick missingStep1Dom = .error .typeError ∧
    paymentTimerFire missingStep1Dom = .error .typeError :=
  ⟨rfl, rfl⟩

/-- C1 amended: absence of the modal root alone disables the whole
component without error, and the handlers the code does guard are skipped
silently — a click on an absent payment button does nothing (its listener
is attached only `if(processBtn)`), and `resetModal` updates the payment
button only when present — but `resetModal` (run on every open-donation
click) and the payment timer dereference the step-1 and step-2 containers
unconditionally, raising a `TypeError` whenever either is absent. -/
theorem donation_missing_elements :
    (∀ n : Nat, donationInit n none = .ok false) ∧
    (∀ (n : Nat) (d : ModalDom n), d.processBtn = none → processBtnClick d = d) ∧
    (∀ (n : Nat) (d : ModalDom n), d.step1 = none →
      openDonateClick d = .error .typeError ∧
      paymentTimerFire d = .error .typeError) ∧
    (∀ (n : Nat) (d : ModalDom n) (s : String), d.step1 = some s → d.step2 = none →
      openDonateClick d = .error .typeError ∧
      paymentTimerFire d = .error .typeError) ∧
    (∀ (n : Nat) (d : ModalDom n) (s1 s2 : String),
      d.step1 = some s1 → d.step2 = some s2 →
      (∃ d', openDonateClick d = .ok d') ∧ ∃ d', paymentTimerFire d = .ok d') := by
  refine ⟨fun n => rfl, ?_, ?_, ?_, ?_⟩
  · intro n d h
    cases d
    simp_all [processBtnClick]
  · intro n d h
    constructor
    · simp [openDonateClick, resetModal, h]
    · simp [paymentTimerFire, h]
  · intro n d s h1 h2
    constructor
    · simp [openDonateClick, resetModal, h1, h2]
    · simp [paymentTimerFire, h1, h2]
  · intro n d s1 s2 h1 h2
    constructor
    · exact ⟨{ d with
          visible := true
          step1 := some "block"
          step2 := some "none"
          processBtn := d.processBtn.map fun _ =>
            { innerText := "CONFIRMAR DONACIÓN", opacity := "1", disabled := false } },
        by simp [openDonateClick, resetModal, h1, h2]⟩
    · exact ⟨{ d with step1 := some "none", step2 := some "block" },
        by simp [paymentTimerFire, h1, h2]⟩

/-- Witness for `donation_missing_elements`: a modal with the payment
button missing is untouched by a process click; a step-2-less modal
raises on the timer; a fully-present modal succeeds. -/
theorem donation_missing_elements_witness :
    ((⟨true, some "block", some "none", none, fun i => i.elim0⟩ :
        ModalDom 0).processBtn = none) ∧
    processBtnClick (⟨true, some "block", some "none", none, fun i => i.elim0⟩ :
        ModalDom 0) =
      ⟨true, some "block", some "none", none, fun i => i.elim0⟩ ∧
    ((missingStep1Dom.step1 = none) ∧
      openDonateClick missingStep1Dom = .error .typeError ∧
      paymentTimerFire missingStep1Dom = .error .typeError) ∧
    (((⟨true, some "block", none, none, fun i => i.elim0⟩ :
        ModalDom 0).step1 = some "block") ∧
      ((⟨true, some "block", none, none, fun i => i.elim0⟩ :
        ModalDom 0).step2 = none) ∧
      paymentTimerFire (⟨true, some "block", none, none, fun i => i.elim0⟩ :
        ModalDom 0) = .error .typeError) :=
  ⟨rfl,
    donation_missing_elements.2.1 0
      ⟨true, some "block", some "none", none, fun i => i.elim0⟩ rfl,
    ⟨rfl, donation_missing_elements.2.2.1 0 missingStep1Dom rfl⟩,
    ⟨rfl, rfl,
      (donation_missing_elements.2.2.2.1 0
        ⟨true, some "block", none, none, fun i => i.elim0⟩ "block" rfl rfl).2⟩⟩

/-- C4: a click on the payment button immediately disables it, sets its
label to `"Procesando..."` and dims it to opacity `"0.7"`, leaving the
modal's visibility and step containers untouched; the `setTimeout` delay
is exactly 2000 ms, and when the timer fires (it is never cancelled) it
hides step 1, shows step 2, and changes nothing else — in particular the
button's disabled state is unchanged by that transition. -/
theorem payment_click_then_timer :
    paymentDelayMs = 2000 ∧
    (∀ (n : Nat) (d : ModalDom n) (b : BtnState), d.processBtn = some b →
      (processBtnClick d).processBtn =
        some { innerText := "Procesando...", opacity := "0.7", disabled := true } ∧
      (processBtnClick d).visible = d.visible ∧
      (processBtnClick d).step1 = d.step1 ∧
      (processBtnClick d).step2 = d.step2) ∧
    (∀ (n : Nat) (d : ModalDom n) (s1 s2 : String),
      d.step1 = some s1 → d.step2 = some s2 →
      paymentTimerFire d = .ok { d with step1 := some "none", step2 := some "block" } ∧
      ∀ d' : ModalDom n, paymentTimerFire d = .ok d' →
        d'.processBtn = d.processBtn ∧ d'.step1 = some "none" ∧ d'.step2 = some "block") := by
  refine ⟨rfl, ?_, ?_⟩
  · intro n d b h
    simp [processBtnClick, h]
  · intro n d s1 s2 h1 h2
    have hfire : paymentTimerFire d =
        .ok { d with step1 := some "none", step2 := some "block" } := by
      simp [paymentTimerFire, h1, h2]
    refine ⟨hfire, ?_⟩
    intro d' h
    rw [hfire] at h
    cases h
    exact ⟨rfl, rfl, rfl⟩

/-- Witness for `payment_click_then_timer` on a concrete modal state just
after a process click. -/
theorem payment_click_then_timer_witness :
    ((⟨true, some "block", some "none",
        some ⟨"CONFIRMAR DONACIÓN", "1", false⟩, fun i => i.elim0⟩ :
        ModalDom 0).processBtn = some ⟨"CONFIRMAR DONACIÓN", "1", false⟩) ∧
    ((processBtnClick (⟨true, some "block", some "none",
        some ⟨"CONFIRMAR DONACIÓN", "1", false⟩, fun i => i.elim0⟩ :
        ModalDom 0)).processBtn =
      some { innerText := "Procesando...", opacity := "0.7", disabled := true }) ∧
    ((⟨true, some "block", some "none",
        some ⟨"Procesando...", "0.7", true⟩, fun i => i.elim0⟩ :
        ModalDom 0).step1 = some "block") ∧
    paymentTimerFire (⟨true, some "block", some "none",
        some ⟨"Procesando...", "0.7", true⟩, fun i => i.elim0⟩ : ModalDom 0) =
      .ok ⟨true, some "none", some "block",
        some ⟨"Procesando...", "0.7", true⟩, fun i => i.elim0⟩ :=
  ⟨rfl,
    (payment_click_then_timer.2.1 0
      ⟨true, some "block", some "none",
        some ⟨"CONFIRMAR DONACIÓN", "1", false⟩, fun i => i.elim0⟩
      ⟨"CONFIRMAR DONACIÓN", "1", false⟩ rfl).1,
    rfl,
    (payment_click_then_timer.2.2 0
      ⟨true, some "block", some "none",
        some ⟨"Procesando...", "0.7", true⟩, fun i => i.elim0⟩
      "block" "none" rfl rfl).1⟩

/-- C5: whatever state a prior open/select/pay/close sequence left behind
(any `d` with its step containers present), an open-donation click shows
the overlay and resets: step 1 displayed, step 2 hidden, and — when the
payment button exists — the button re-enabled with its default label
`"CONFIRMAR DONACIÓN"` and opacity `"1"`.  The amount selection is the
only part untouched. -/
theorem open_resets_modal :
    (∀ (n : Nat) (d : ModalDom n) (s1 s2 : String),
      d.step1 = some s1 → d.step2 = some s2 →
      openDonateClick d =
        .ok { d with
              visible := true
              step1 := some "block"
              step2 := some "none"
              processBtn := d.processBtn.map fun _ =>
                { innerText := "CONFIRMAR DONACIÓN", opacity := "1", disabled := false } }) ∧
    (∀ (n : Nat) (d : ModalDom n) (s1 s2 : String) (b : BtnState),
      d.step1 = some s1 → d.step2 = some s2 → d.processBtn = some b →
      ∀ d' : ModalDom n, openDonateClick d = .ok d' →
        d'.visible = true ∧ d'.step1 = some "block" ∧ d'.step2 = some "none" ∧
        d'.processBtn =
          some { innerText := "CONFIRMAR DONACIÓN", opacity := "1", disabled := false } ∧
        d'.amountSelected = d.amountSelected) := by
  constructor
  · intro n d s1 s2 h1 h2
    simp [openDonateClick, resetModal, h1, h2]
  · intro n d s1 s2 b h1 h2 hb d' h
    have hopen : openDonateClick d =
        .ok { d with
              visible := true
              step1 := some "block"
              step2 := some "none"
              processBtn := d.processBtn.map fun _ =>
                { innerText := "CONFIRMAR DONACIÓN", opacity := "1", disabled := false } } := by
      simp [openDonateClick, resetModal, h1, h2]
    rw [hopen] at h
    cases h
    exact ⟨rfl, rfl, rfl, by simp [hb], rfl⟩

/-- Witness for `open_resets_modal` on the state a pay-then-close
sequence leaves behind: modal hidden, step 2 showing, button disabled
with the processing label. -/
theorem open_resets_modal_witness :
    ((⟨false, some "none", some "block",
        some ⟨"Procesando...", "0.7", true⟩, fun i => i.elim0⟩ :
        ModalDom 0).step1 = some "none") ∧
    ((⟨false, some "none", some "block",
        some ⟨"Procesando...", "0.7", true⟩, fun i => i.elim0⟩ :
        ModalDom 0).step2 = some "block") ∧
    openDonateClick (⟨false, some "none", some "block",
        some ⟨"Procesando...", "0.7", true⟩, fun i => i.elim0⟩ : ModalDom 0) =
      .ok ⟨true, some "block", some "none",
        some ⟨"CONFIRMAR DONACIÓN", "1", false⟩, fun i => i.elim0⟩ :=
  ⟨rfl, rfl, by
    have h := open_resets_modal.1 0
      ⟨false, some "none", some "block",
        some ⟨"Procesando...", "0.7", true⟩, fun i => i.elim0⟩
      "none" "block" rfl rfl
    simpa using h⟩

/-- Appending one more amount click to a sequence applies it last. -/
lemma applyAmountClicks_append_one {n : Nat} (d : ModalDom n)
    (clicks : List (Fin n)) (i : Fin n) :
    applyAmountClicks d (clicks ++ [i]) =
      amountClick (applyAmountClicks d clicks) i := by
  simp [applyAmountClicks, List.foldl_append]

/-- C8: each amount-button click first clears the `selected` marker from
every amount button and then marks only the clicked one, so after a click
on `i` exactly `i` is selected — and hence after any click sequence ending
in a click on `i`, exactly `i` is selected and at most one button is
selected at any time. -/
theorem amount_selection_exclusive :
    (∀ (n : Nat) (d : ModalDom n) (i j : Fin n),
      (amountClick d i).amountSelected j = true ↔ j = i) ∧
    (∀ (n : Nat) (d : ModalDom n) (clicks : List (Fin n)) (i j : Fin n),
      (applyAmountClicks d (clicks ++ [i])).amountSelected j = decide (j = i)) := by
  constructor
  · intro n d i j
    simp [amountClick]
  · intro n d clicks i j
    rw [applyAmountClicks_append_one]
    simp [amountClick]

/-- Witness for `amount_selection_exclusive` (no hypotheses to discharge):
instantiated at three buttons, clicking 0 then 2 then 1. -/
theorem amount_selection_exclusive_witness :
    ((amountClick (⟨true, some "block", some "none", none, fun _ => false⟩ :
        ModalDom 3) 1).amountSelected 2 = true ↔ (2 : Fin 3) = 1) ∧
    (applyAmountClicks (⟨true, some "block", some "none", none, fun _ => false⟩ :
        ModalDom 3) ([0, 2] ++ [1])).amountSelected 1 = decide ((1 : Fin 3) = 1) :=
  ⟨amount_selection_exclusive.1 3
      ⟨true, some "block", some "none", none, fun _ => false⟩ 1 2,
    amount_selection_exclusive.2 3
      ⟨true, some "block", some "none", none, fun _ => false⟩ [0, 2] 1 1⟩

/-- Amount clicks change only the `selected` markers. -/
lemma nonAmountState_applyAmountClicks {n : Nat} (d : ModalDom n)
    (clicks : List (Fin n)) :
    nonAmountState (applyAmountClicks d clicks) = nonAmountState d := by
  induction clicks generalizing d with
  | nil => rfl
  | cons c cs ih =>
    rw [applyAmountClicks, List.foldl_cons]
    exact (ih _).trans rfl

/-- Every non-amount handler reads only the non-amount part of the state:
its observable effect is a function of `nonAmountState` alone. -/
lemma handlers_ignore_selection {n : Nat} (d₁ d₂ : ModalDom n)
    (h : nonAmountState d₁ = nonAmountState d₂) :
    nonAmountState (processBtnClick d₁) = nonAmountState (processBtnClick d₂) ∧
    (paymentTimerFire d₁).map nonAmountState =
      (paymentTimerFire d₂).map nonAmountState ∧
    (openDonateClick d₁).map nonAmountState =
      (openDonateClick d₂).map nonAmountState ∧
    nonAmountState (closeModalClick d₁) = nonAmountState (closeModalClick d₂) := by
  simp only [nonAmountState, Prod.mk.injEq] at h
  obtain ⟨hv, h1, h2, hp⟩ := h
  refine ⟨?_, ?_, ?_, ?_⟩
  · simp [processBtnClick, nonAmountState, hv, h1, h2, hp]
  · simp only [paymentTimerFire, h1, h2]
    cases d₂.step1 <;> cases d₂.step2 <;>
      simp [Except.map, nonAmountState, hv, hp]
  · simp only [openDonateClick, resetModal]
    have e1 : ({ d₁ with visible := true } : ModalDom n).step1 = d₂.step1 := h1
    have e2 : ({ d₁ with visible := true } : ModalDom n).step2 = d₂.step2 := h2
    rw [e1, e2]
    cases d₂.step1 <;> cases d₂.step2 <;>
      simp [Except.map, nonAmountState, hv, hp]
  · simp [closeModalClick, nonAmountState, hv, h1, h2, hp]

/-- C10: the selected-amount state is write-only.  Amount clicks leave the
non-amount state untouched; the payment-process click, the payment timer,
the open handler and the close handler all produce the same observable
(visibility, step-container, payment-button) state on any two modal states
that agree outside the selection; hence two payment-simulation runs that
differ only in the preceding amount-click sequence end in identical
button, step-1 and step-2 state. -/
theorem amount_selection_noninterference :
    (∀ (n : Nat) (d : ModalDom n) (clicks : List (Fin n)),
      nonAmountState (applyAmountClicks d clicks) = nonAmountState d) ∧
    (∀ (n : Nat) (d₁ d₂ : ModalDom n), nonAmountState d₁ = nonAmountState d₂ →
      nonAmountState (processBtnClick d₁) = nonAmountState (processBtnClick d₂) ∧
      (paymentTimerFire d₁).map nonAmountState =
        (paymentTimerFire d₂).map nonAmountState ∧
      (openDonateClick d₁).map nonAmountState =
        (openDonateClick d₂).map nonAmountState ∧
      nonAmountState (closeModalClick d₁) = nonAmountState (closeModalClick d₂)) ∧
    (∀ (n : Nat) (d : ModalDom n) (a₁ a₂ : List (Fin n)),
      (paymentTimerFire (processBtnClick (applyAmountClicks d a₁))).map nonAmountState =
      (paymentTimerFire (processBtnClick (applyAmountClicks d a₂))).map nonAmountState) := by
  refine ⟨fun n d clicks => nonAmountState_applyAmountClicks d clicks,
    fun n d₁ d₂ h => handlers_ignore_selection d₁ d₂ h, ?_⟩
  intro n d a₁ a₂
  have h : nonAmountState (applyAmountClicks d a₁) =
      nonAmountState (applyAmountClicks d a₂) :=
    (nonAmountState_applyAmountClicks d a₁).trans
      (nonAmountState_applyAmountClicks d a₂).symm
  have hstep := (handlers_ignore_selection _ _ h).1
  exact (handlers_ignore_selection _ _ hstep).2.1

/-- Witness for `amount_selection_noninterference`: two states differing
only in the selection, and two runs with different click prefixes. -/
theorem amount_selection_noninterference_witness :
    (nonAmountState (⟨true, some "block", some "none",
        some ⟨"CONFIRMAR DONACIÓN", "1", false⟩, fun _ => false⟩ : ModalDom 2) =
      nonAmountState (⟨true, some "block", some "none",
        some ⟨"CONFIRMAR DONACIÓN", "1", false⟩, fun _ => true⟩ : ModalDom 2)) ∧
    nonAmountState (processBtnClick (⟨true, some "block", some "none",
        some ⟨"CONFIRMAR DONACIÓN", "1", false⟩, fun _ => false⟩ : ModalDom 2)) =
      nonAmountState (processBtnClick (⟨true, some "block", some "none",
        some ⟨"CONFIRMAR DONACIÓN", "1", false⟩, fun _ => true⟩ : ModalDom 2)) ∧
    (paymentTimerFire (processBtnClick (applyAmountClicks
        (⟨true, some "block", some "none",
          some ⟨"CONFIRMAR DONACIÓN", "1", false⟩, fun _ => false⟩ : ModalDom 2)
        [0, 1]))).map nonAmountState =
      (paymentTimerFire (processBtnClick (applyAmountClicks
        (⟨true, some "block", some "none",
          some ⟨"CONFIRMAR DONACIÓN", "1", false⟩, fun _ => false⟩ : ModalDom 2)
        [1]))).map nonAmountState :=
  ⟨rfl,
    (amount_selection_noninterference.2.1 2
      ⟨true, some "block", some "none",
        some ⟨"CONFIRMAR DONACIÓN", "1", false⟩, fun _ => false⟩
      ⟨true, some "block", some "none",
        some ⟨"CONFIRMAR DONACIÓN", "1", false⟩, fun _ => true⟩ rfl).1,
    amount_selection_noninterference.2.2 2
      ⟨true, some "block", some "none",
        some ⟨"CONFIRMAR DONACIÓN", "1", false⟩, fun _ => false⟩
      [0, 1] [1]⟩

/-- Since `2000 / 16 = 125`, the per-frame increment is a 125th of the target. -/
lemma increment_eq (t : Nat) : increment t = (t : Rat) / 125 := by
  simp only [increment, duration, frameMs]
  norm_num

/-- One unfolding of the frame loop. -/
lemma updateCount_succ (t : Nat) (o : String) (fuel : Nat) (cur : Rat) :
    updateCount t o (fuel + 1) cur =
      if cur + increment t < (t : Rat) then
        natToLocaleString (Rat.ceil (cur + increment t)).toNat
          :: updateCount t o fuel (cur + increment t)
      else [o] := rfl

/-- After `j` frames the accumulator `j · increment` is still strictly
below the target exactly when fewer than 125 frames have elapsed. -/
lemma frame_lt_target (t : Nat) (ht : 0 < t) (j : Nat) :
    ((j : Rat) * increment t < (t : Rat)) ↔ j < 125 := by
  have ht' : (0 : Rat) < (t : Rat) := by exact_mod_cast ht
  rw [increment_eq, ← mul_div_assoc, div_lt_iff₀ (by norm_num : (0 : Rat) < 125),
    mul_comm (t : Rat) 125, mul_lt_mul_right ht']
  exact_mod_cast Iff.rfl

/-- Applying `Rat.ceil` to a natural number gives it back. -/
lemma ratCeil_natCast (m : Nat) : Rat.ceil ((m : Nat) : Rat) = (m : Int) := by
  simp [Rat.ceil]

/-- Closed form of the frame loop from the state reached after `k` frames:
with enough fuel left it emits one grouped display per remaining frame
strictly below the target, followed by the original text. -/
lemma updateCount_closed (t : Nat) (ht : 0 < t) (o : String) :
    ∀ (r k : Nat), k ≤ 124 → 125 ≤ k + (r + 1) →
      updateCount t o (r + 1) ((k : Rat) * increment t) =
        (List.range' (k + 1) (124 - k)).map
          (fun j : Nat => natToLocaleString (Rat.ceil ((j : Rat) * increment t)).toNat)
          ++ [o] := by
  intro r
  induction r with
  | zero =>
    intro k hk h125
    have hk' : k = 124 := by omega
    subst hk'
    have hcur : ((124 : Nat) : Rat) * increment t + increment t
        = ((125 : Nat) : Rat) * increment t := by push_cast; ring
    have hnot : ¬ (((125 : Nat) : Rat) * increment t < (t : Rat)) := by
      rw [frame_lt_target t ht 125]
      omega
    rw [updateCount_succ, hcur, if_neg hnot]
    simp
  | succ r ih =>
    intro k hk h125
    by_cases hke : k = 124
    · subst hke
      have hcur : ((124 : Nat) : Rat) * increment t + increment t
          = ((125 : Nat) : Rat) * increment t := by push_cast; ring
      have hnot : ¬ (((125 : Nat) : Rat) * increment t < (t : Rat)) := by
        rw [frame_lt_target t ht 125]
        omega
      rw [updateCount_succ, hcur, if_neg hnot]
      simp
    · have hcur : ((k : Nat) : Rat) * increment t + increment t
          = (((k + 1 : Nat)) : Rat) * increment t := by push_cast; ring
      have hyes : (((k + 1 : Nat)) : Rat) * increment t < (t : Rat) := by
        rw [frame_lt_target t ht (k + 1)]
        omega
      rw [updateCount_succ, hcur, if_pos hyes, ih (k + 1) (by omega) (by omega)]
      have hrange : List.range' (k + 1) (124 - k) =
          (k + 1) :: List.range' (k + 2) (124 - (k + 1)) := by
        have h124 : 124 - k = (124 - (k + 1)) + 1 := by omega
        rw [h124, List.range'_succ]
      rw [hrange]
      simp

/-- The `"1,250+"` counter's full display sequence, for any fuel covering
the 125 frames the loop actually runs. -/
lemma animate_1250_fuel (fuel : Nat) (h : 125 ≤ fuel) :
    animateCounter "1,250+" fuel =
      (List.range' 1 124).map (fun k => natToLocaleString (10 * k)) ++ ["1,250+"] := by
  obtain ⟨r, rfl⟩ : ∃ r, fuel = r + 1 := ⟨fuel - 1, by omega⟩
  have htarget : counterTarget "1,250+" = 1250 := by decide
  have hj : ∀ j : Nat,
      (Rat.ceil ((j : Rat) * increment 1250)).toNat = 10 * j := by
    intro j
    have hinc : increment 1250 = (10 : Rat) := by
      rw [increment_eq]
      norm_num
    have hmul : (j : Rat) * (10 : Rat) = ((10 * j : Nat) : Rat) := by
      push_cast
      ring
    rw [hinc, hmul, ratCeil_natCast]
    omega
  rw [animateCounter, htarget,
    show (0 : Rat) = ((0 : Nat) : Rat) * increment 1250 by simp,
    updateCount_closed 1250 (by norm_num) "1,250+" r 0 (by omega) (by omega)]
  simp only [hj]

/-- C2: each counter strips non-digits from its initial text to get the
target, advances an accumulator by `target / (2000 / 16)` per frame,
displays the grouped ceiling of the accumulator while it is strictly below
the target, and displays the captured original text verbatim once it
reaches or exceeds it.  For initial text `"1,250+"` the target is 1250,
the run (at the loop's own frame budget `2000 / 16`, or any larger fuel)
shows `"10", "20", …, "1,240"`, every intermediate display is a grouped
digit string without `"+"`, and the final display is exactly
`"1,250+"`. -/
theorem counter_animation_correct :
    (∀ (t : Nat) (o : String) (fuel : Nat) (cur : Rat),
      updateCount t o (fuel + 1) cur =
        if cur + increment t < (t : Rat) then
          natToLocaleString (Rat.ceil (cur + increment t)).toNat
            :: updateCount t o fuel (cur + increment t)
        else [o]) ∧
    counterTarget "1,250+" = 1250 ∧
    animateCounter "1,250+" (duration / frameMs) =
      (List.range' 1 124).map (fun k => natToLocaleString (10 * k)) ++ ["1,250+"] ∧
    ((animateCounter "1,250+" (duration / frameMs)).dropLast.all
      fun s => (s.data.all fun c => c.isDigit || c == ',') && !(s.data.contains '+')) = true ∧
    (animateCounter "1,250+" (duration / frameMs)).getLast? = some "1,250+" ∧
    ∀ fuel : Nat, 125 ≤ fuel →
      animateCounter "1,250+" fuel = animateCounter "1,250+" (duration / frameMs) := by
  have hfuel : duration / frameMs = 125 := by decide
  have h125 : animateCounter "1,250+" (duration / frameMs) =
      (List.range' 1 124).map (fun k => natToLocaleString (10 * k)) ++ ["1,250+"] := by
    rw [hfuel]
    exact animate_1250_fuel 125 (by omega)
  refine ⟨fun t o fuel cur => updateCount_succ t o fuel cur, by decide, h125, ?_, ?_, ?_⟩
  · rw [h125]
    decide
  · rw [h125]
    decide
  · intro fuel hf
    rw [animate_1250_fuel fuel hf, h125]

/-- Witness for `counter_animation_correct`: fuel 200 also covers the 125
frames of the `"1,250+"` run. -/
theorem counter_animation_correct_witness :
    125 ≤ 200 ∧
    animateCounter "1,250+" 200 = animateCounter "1,250+" (duration / frameMs) :=
  ⟨by omega, counter_animation_correct.2.2.2.2.2 200 (by omega)⟩

end Fundacion
